import Mathlib

/-!
Shallow embedding of `src/oauth_dcr/cli.py` (OAuth2 Dynamic Client
Registration CLI) and proofs about its discovery, registration and
input-validation behaviour.

Modelling conventions:
* JSON values decoded by Python's `json` module are modelled by the
  inductive `Json` below (numbers restricted to integers; none of the
  verified properties involve floating point).
* An HTTP exchange is modelled by its observable outcome: `none` stands
  for a transport-level failure (`httpx.RequestError`), and
  `some ⟨status, text, json⟩` for a received response, where the `json`
  field is `some v` exactly when `response.json()` succeeds with value `v`
  and `none` when it raises `json.JSONDecodeError` on the body `text`.
* Console output (`console.print`) is modelled as an event list; process
  termination via `sys.exit` and uncaught Python exceptions are modelled
  as explicit outcome variants.
* The fragments of CPython's `urllib.parse` used by the code
  (`urlparse` scheme detection, `urljoin` with the constant absolute path
  `/.well-known/oauth-authorization-server`) are embedded following the
  CPython 3.11 implementation, assuming inputs free of the control
  characters (tab, CR, LF) that `urlsplit` strips.
-/

namespace OAuthDCR

/-! ## JSON values as decoded by Python's json module -/

/-- A JSON value as produced by `json.loads` / `response.json()`.
Numbers are modelled as integers (no claim involves floats). -/
inductive Json where
  | null
  | bool (b : Bool)
  | num (n : Int)
  | str (s : String)
  | arr (elems : List Json)
  | obj (fields : List (String × Json))

/-- Python truthiness (`bool(x)`) of a decoded JSON value:
`None`, `False`, `0`, `""`, `[]` and `{}` are falsy. -/
def Json.truthy : Json → Bool
  | .null => false
  | .bool b => b
  | .num n => n ≠ 0
  | .str s => s ≠ ""
  | .arr elems => ¬ elems.isEmpty
  | .obj fields => ¬ fields.isEmpty

/-- Lookup in a decoded JSON object, as Python `dict.get(key)`.
`json.loads` builds the dict by successive assignment, so a later
duplicate key wins; the fold mirrors that. -/
def lookupJson (fields : List (String × Json)) (key : String) : Option Json :=
  fields.foldl (fun acc kv => if kv.1 = key then some kv.2 else acc) none

/-- `dict.get` lifted to a `Json` value that is known to be an object
(on a non-object, Python raises `AttributeError`; callers of this
function in statements only apply it to objects). -/
def Json.getKey : Json → String → Option Json
  | .obj fields, key => lookupJson fields key
  | _, _ => none

/-! ## The used fragment of CPython urllib.parse -/

/-- Characters allowed in a URL scheme by CPython's `urlsplit`
(`scheme_chars`): ASCII letters, digits, `+`, `-`, `.`. -/
def isSchemeChar (c : Char) : Bool :=
  c.isAlpha || c.isDigit || c = '+' || c = '-' || c = '.'

/-- Scan for `scheme:` at the head of a character list: succeeds at the
first `:` provided every preceding character is a scheme character. -/
def splitSchemeAux : List Char → List Char → Option (List Char × List Char)
  | _, [] => none
  | acc, c :: rest =>
    if c = ':' then some (acc.reverse, rest)
    else if isSchemeChar c then splitSchemeAux (c :: acc) rest
    else none

/-- CPython `urlsplit` scheme detection: a scheme is recognised when the
URL has a `:` at position `i > 0`, the first character is an ASCII
letter, and all characters before the `:` are scheme characters; the
scheme is lowercased. Returns `(scheme, remainder)` or `none`. -/
def pySplitScheme (url : String) : Option (String × String) :=
  match url.data with
  | [] => none
  | c :: _ =>
    if c.isAlpha then
      match splitSchemeAux [] url.data with
      | some (sch, rest) => some (String.mk (sch.map Char.toLower), String.mk rest)
      | none => none
    else none

/-- CPython `urlsplit` netloc extraction on the part after the scheme:
if it starts with `//`, the netloc runs up to the next `/`, `?` or `#`.
Returns `(netloc, remainder)`. -/
def pySplitNetloc : List Char → List Char × List Char
  | '/' :: '/' :: rest =>
    let netloc := rest.takeWhile fun c => ¬ (c = '/' ∨ c = '?' ∨ c = '#')
    (netloc, rest.drop netloc.length)
  | l => ([], l)

/-- The `(scheme, netloc)` components of CPython `urlsplit(base)`, the
only components of the base URL that `urljoin` consults when the second
argument is an absolute path. -/
def urlBaseParts (base : String) : String × String :=
  match pySplitScheme base with
  | some (sch, rest) => (sch, String.mk (pySplitNetloc rest.data).1)
  | none => ("", String.mk (pySplitNetloc base.data).1)

/-- Scheme component of CPython `urlsplit(base)` (empty when absent). -/
def baseScheme (base : String) : String := (urlBaseParts base).1

/-- CPython `urllib.parse.uses_relative`: schemes for which `urljoin`
performs relative resolution at all. -/
def usesRelative : List String :=
  ["", "ftp", "http", "gopher", "nntp", "imap", "wais", "file", "https",
   "shttp", "mms", "prospero", "rtsp", "rtspu", "sftp", "svn", "svn+ssh",
   "ws", "wss"]

/-- CPython `urllib.parse.uses_netloc`: schemes for which `urljoin`
carries the base's network location over to the result. -/
def usesNetloc : List String :=
  ["", "ftp", "http", "gopher", "nntp", "telnet", "imap", "wais", "file",
   "mms", "https", "shttp", "snews", "prospero", "rtsp", "rtspu", "rsync",
   "svn", "svn+ssh", "sftp", "nfs", "git", "git+ssh", "ws", "wss",
   "itms-services"]

/-- The constant second argument of `urljoin` in
`discover_registration_endpoint`. -/
def wellKnownPath : String := "/.well-known/oauth-authorization-server"

/-- CPython `urlunsplit((scheme, netloc, path, '', ''))`: reassemble a URL
from scheme, netloc and path with empty query and fragment. -/
def urlunsplitSchemeNetloc (scheme netloc path : String) : String :=
  let url :=
    if netloc ≠ "" ∨ path.data.take 2 = ['/', '/'] then
      "//" ++ netloc ++ (if path ≠ "" ∧ ¬ path.data.take 1 = ['/'] then "/" ++ path else path)
    else path
  if scheme ≠ "" then scheme ++ ":" ++ url else url

/-- CPython `urljoin(base, wellKnownPath)`, specialised at the constant
second argument: that URL has no scheme and no netloc, a nonempty
absolute path containing no `.` or `..` segments, and no params, query or
fragment, so `urlparse(url, bscheme)` gives it the base's scheme, the
path-merging loop returns the path unchanged, and the result depends only
on the base's scheme and netloc:
* empty base → the path itself;
* base scheme not in `uses_relative` → the path itself (base discarded);
* otherwise → `urlunparse((bscheme, bnetloc-or-empty, path, '', '', ''))`,
  with the base netloc kept exactly when the scheme is in `uses_netloc`. -/
def joinWellKnown (base : String) : String :=
  if base = "" then wellKnownPath
  else
    let p := urlBaseParts base
    if p.1 ∈ usesRelative then
      urlunsplitSchemeNetloc p.1 (if p.1 ∈ usesNetloc then p.2 else "") wellKnownPath
    else wellKnownPath

/-- Lines 29–31 of `cli.py`: prepend `https://` when `urlparse` finds no
scheme in the supplied authorization-server identifier. -/
def normalizeAuthServer (authServer : String) : String :=
  if (pySplitScheme authServer).isSome then authServer else "https://" ++ authServer

/-- Line 34 of `cli.py`: the well-known metadata URL,
`urljoin(auth_server, "/.well-known/oauth-authorization-server")` applied
to the normalized identifier. -/
def wellKnownUrl (authServer : String) : String :=
  joinWellKnown (normalizeAuthServer authServer)

/-- Modelled from the spec's words (§4.1 Normalization): the well-known
path "replaces any existing path component of the base URL", i.e. the
result keeps the base's scheme and network location unconditionally and
substitutes the well-known path. Used to state claim C7 against the
code's actual `urljoin` behaviour. -/
def basePathReplaced (base : String) : String :=
  urlunsplitSchemeNetloc (urlBaseParts base).1 (urlBaseParts base).2 wellKnownPath

/-! ## HTTP exchanges and Python-level outcomes -/

/-- Observable outcome of one HTTP request that received a response:
the status code, the raw body text (`response.text`), and the result of
`response.json()` — `some v` when the body parses as JSON value `v`,
`none` when parsing raises `json.JSONDecodeError`. A whole exchange is
an `Option HttpResponse`, with `none` standing for `httpx.RequestError`
(DNS, TLS, timeout, refused). -/
structure HttpResponse where
  status : Nat
  text : String
  json : Option Json

/-- Outcome of a Python function call: a returned value, or an uncaught
exception propagating out of it. -/
inductive PyResult (α : Type) where
  | ok (a : α)
  | raised

/-! ## discover_registration_endpoint (cli.py lines 18–64) -/

/-- One `console.print` performed by `discover_registration_endpoint`,
identified by which line emits it. -/
inductive DiscEvent where
  | discovering (url : String)
  | metadataRetrieved (metadata : Json)
  | warnNotSupported
  | errHttpStatus (status : Nat) (body : String)
  | errConnect
  | errInvalidJson

/-- The observable behaviour of one `discover_registration_endpoint`
call: the console messages in order, and the Python-level result. The
function returns `None` (modelled `ok none`) or the value stored under
`registration_endpoint` (modelled `ok (some v)`); `raised` covers the
uncaught `AttributeError` when the metadata document is valid JSON but
not an object, so that `metadata.get` does not exist. -/
structure DiscResult where
  events : List DiscEvent
  result : PyResult (Option Json)

/-- `discover_registration_endpoint(auth_server)` as a function of the
identifier and the outcome of its single GET request. Mirrors cli.py:
normalize the scheme, build the well-known URL, then
`raise_for_status()` (non-2xx → error, returns `None`), JSON-decode
(failure → error, returns `None`), print the metadata, and return
`metadata.get("registration_endpoint")` if that value is truthy, else
warn and return `None`. -/
def discover_registration_endpoint (authServer : String)
    (net : Option HttpResponse) : DiscResult :=
  let wk := wellKnownUrl authServer
  match net with
  | none => ⟨[.discovering wk, .errConnect], .ok none⟩
  | some r =>
    if 200 ≤ r.status ∧ r.status < 300 then
      match r.json with
      | none => ⟨[.discovering wk, .errInvalidJson], .ok none⟩
      | some (.obj fields) =>
        match lookupJson fields "registration_endpoint" with
        | none =>
          ⟨[.discovering wk, .metadataRetrieved (.obj fields), .warnNotSupported], .ok none⟩
        | some v =>
          if v.truthy then
            ⟨[.discovering wk, .metadataRetrieved (.obj fields)], .ok (some v)⟩
          else
            ⟨[.discovering wk, .metadataRetrieved (.obj fields), .warnNotSupported], .ok none⟩
      | some m => ⟨[.discovering wk, .metadataRetrieved m], .raised⟩
    else ⟨[.discovering wk, .errHttpStatus r.status r.text], .ok none⟩

/-! ## register_client (cli.py lines 67–127) -/

/-- One `console.print` performed by `register_client`. -/
inductive RegEvent where
  | registering (endpoint : Json)
  | requestPanel (request : Json)
  | registered (response : Json)
  | errStructured (error : Json) (description : Json) (status : Nat) (body : Json)
  | errUnstructured (status : Nat) (text : String)
  | errConnect
  | errInvalidJson

/-- How a `register_client` call ends: a returned registration response,
`sys.exit(code)`, or an uncaught exception (`AttributeError` when a
non-201 JSON body is not an object, so `error_data.get` does not exist). -/
inductive RegOutcome where
  | returned (response : Json)
  | exited (code : Nat)
  | raised

/-- The observable behaviour of one `register_client` call: the request
body it built, the console messages, and how it ended. -/
structure RegResult where
  request : Json
  events : List RegEvent
  outcome : RegOutcome

/-- Lines 79–85 of `cli.py`: the registration request body. -/
def registrationRequest (clientName : String) (redirectUris : List String) : Json :=
  .obj [("client_name", .str clientName),
        ("redirect_uris", .arr (redirectUris.map .str)),
        ("grant_types", .arr [.str "authorization_code"]),
        ("response_types", .arr [.str "code"]),
        ("token_endpoint_auth_method", .str "client_secret_basic")]

/-- `register_client(registration_endpoint, client_name, redirect_uris)`
as a function of its arguments and the outcome of its single POST.
The endpoint is carried as a `Json` value because `main` passes along
whatever `discover_registration_endpoint` returned. Mirrors cli.py:
build the request, print it, POST; on 201 decode the body and return it
(decode failure → the outer `except json.JSONDecodeError` prints and
exits 1); on any other status decode the body and report
`error` / `error_description` with their defaults (body not JSON → report
status and raw text), then `sys.exit(1)`; transport failure → exit 1. -/
def register_client (endpoint : Json) (clientName : String)
    (redirectUris : List String) (net : Option HttpResponse) : RegResult :=
  let req := registrationRequest clientName redirectUris
  let tail : List RegEvent × RegOutcome :=
    match net with
    | none => ([.errConnect], .exited 1)
    | some r =>
      if r.status = 201 then
        match r.json with
        | some v => ([.registered v], .returned v)
        | none => ([.errInvalidJson], .exited 1)
      else
        match r.json with
        | some (.obj fields) =>
          ([.errStructured ((lookupJson fields "error").getD (.str "unknown_error"))
              ((lookupJson fields "error_description").getD (.str "No description provided"))
              r.status (.obj fields)], .exited 1)
        | some _ => ([], .raised)
        | none => ([.errUnstructured r.status r.text], .exited 1)
  ⟨req, [.registering endpoint, .requestPanel req] ++ tail.1, tail.2⟩

/-! ## main (cli.py lines 146–189) -/

/-- Python `str.split(",")`, helper: accumulate the current piece
(reversed) while walking the remaining characters. -/
def splitCommaAux : List Char → List Char → List String
  | acc, [] => [String.mk acc.reverse]
  | acc, c :: rest =>
    if c = ',' then String.mk acc.reverse :: splitCommaAux [] rest
    else splitCommaAux (c :: acc) rest

/-- Python `str.split(",")`: split at every comma, keeping empty pieces
(`"".split(",") == [""]`, `"a,,b".split(",") == ["a","","b"]`). -/
def pySplitComma (s : String) : List String := splitCommaAux [] s.data

/-- Whitespace stripped by Python `str.strip()`, restricted to ASCII
(space, tab, newline, carriage return, vertical tab, form feed); the
claims involve no non-ASCII whitespace. -/
def isPySpace (c : Char) : Bool :=
  c = ' ' ∨ c = '\t' ∨ c = '\n' ∨ c = '\r' ∨ c = '\x0b' ∨ c = '\x0c'

/-- Python `str.strip()`: drop leading and trailing whitespace. -/
def pyStrip (s : String) : String :=
  String.mk (((s.data.dropWhile isPySpace).reverse.dropWhile isPySpace).reverse)

/-- Line 155 of `cli.py`: the comprehension
`[uri.strip() for uri in redirect_uris.split(",") if uri.strip()]`. -/
def redirectUriList (redirectUris : String) : List String :=
  ((pySplitComma redirectUris).filter fun u => pyStrip u ≠ "").map pyStrip

/-- Modelled from the spec's words (§8): entries are split on `,`, each
trimmed, and entries blank after trimming are discarded. Used to state
claim C8 against the code's comprehension. -/
def specRedirectUris (redirectUris : String) : List String :=
  ((pySplitComma redirectUris).map pyStrip).filter fun t => t ≠ ""

/-- How a whole `main` invocation ends. -/
inductive MainOutcome where
  | validationError
  | discoveryFailed
  | discoveryRaised
  | registration (r : RegOutcome)

/-- Observable behaviour of one `main` invocation: how many network
requests were attempted, and how it ended. -/
structure MainResult where
  networkCalls : Nat
  outcome : MainOutcome

/-- `main(auth_server, client_name, redirect_uris)` as a function of its
arguments and the outcomes of the (at most two) network exchanges.
Mirrors cli.py: parse the redirect URIs; if none remain, print an error
and `sys.exit(1)` before any network activity; otherwise run discovery
(one network request); a falsy discovery result → exit 1; otherwise run
registration (a second network request). -/
def main (authServer clientName redirectUris : String)
    (discNet regNet : Option HttpResponse) : MainResult :=
  let uris := redirectUriList redirectUris
  if uris.isEmpty then ⟨0, .validationError⟩
  else
    match (discover_registration_endpoint authServer discNet).result with
    | .raised => ⟨1, .discoveryRaised⟩
    | .ok none => ⟨1, .discoveryFailed⟩
    | .ok (some v) =>
      if v.truthy then
        ⟨2, .registration (register_client v clientName uris regNet).outcome⟩
      else ⟨1, .discoveryFailed⟩

/-! ## Claim-side predicates -/

/-- Claim C1's hypothesis as a predicate on a metadata document: it
carries a `registration_endpoint` field whose value is a non-empty
string. -/
def hasNonemptyStringRegistrationEndpoint (m : Json) : Bool :=
  match m.getKey "registration_endpoint" with
  | some (.str s) => s ≠ ""
  | _ => false

/-! ## Theorems -/

/-- Claim C2: for every 2xx metadata response whose JSON object carries a
non-empty string `registration_endpoint`, discovery returns exactly that
string, unmodified. -/
theorem discover_returns_nonempty_string_endpoint (authServer : String)
    (status : Nat) (text : String) (fields : List (String × Json)) (s : String)
    (hst : 200 ≤ status ∧ status < 300)
    (hlook : lookupJson fields "registration_endpoint" = some (.str s))
    (hne : s ≠ "") :
    (discover_registration_endpoint authServer
        (some ⟨status, text, some (.obj fields)⟩)).result
      = .ok (some (.str s)) := by
  simp only [discover_registration_endpoint]
  rw [if_pos hst, hlook]
  simp [Json.truthy, hne]

/-- Witness for C2 at a concrete metadata document. -/
theorem discover_returns_nonempty_string_endpoint_witness :
    (discover_registration_endpoint "https://as.example"
        (some ⟨200, "{...}",
          some (.obj [("issuer", .str "https://as.example"),
                      ("registration_endpoint", .str "https://as.example/register")])⟩)).result
      = .ok (some (.str "https://as.example/register")) :=
  discover_returns_nonempty_string_endpoint "https://as.example" 200 "{...}"
    [("issuer", .str "https://as.example"),
     ("registration_endpoint", .str "https://as.example/register")]
    "https://as.example/register" (by decide) rfl (by decide)

/-- Claim C1 (amended): for every 2xx metadata response parsing as a JSON
object whose `registration_endpoint` value is absent or falsy (null,
false, 0, empty string, empty array, empty object), discovery warns and
returns `None` — the NotSupported outcome, not an error. (A truthy
non-string value is returned as-is instead; see the counterexample.) -/
theorem discover_falsy_endpoint_not_supported (authServer : String)
    (status : Nat) (text : String) (fields : List (String × Json))
    (hst : 200 ≤ status ∧ status < 300)
    (hfalsy : ∀ v, lookupJson fields "registration_endpoint" = some v → v.truthy = false) :
    discover_registration_endpoint authServer (some ⟨status, text, some (.obj fields)⟩)
      = ⟨[.discovering (wellKnownUrl authServer), .metadataRetrieved (.obj fields),
          .warnNotSupported], .ok none⟩ := by
  simp only [discover_registration_endpoint]
  rw [if_pos hst]
  cases hl : lookupJson fields "registration_endpoint" with
  | none => simp
  | some v => simp [hfalsy v hl]

/-- Witness for C1 (amended) at a metadata document with no
`registration_endpoint` key. -/
theorem discover_falsy_endpoint_not_supported_witness :
    discover_registration_endpoint "https://as.example"
        (some ⟨200, "{}", some (.obj [])⟩)
      = ⟨[.discovering (wellKnownUrl "https://as.example"),
          .metadataRetrieved (.obj []), .warnNotSupported], .ok none⟩ :=
  discover_falsy_endpoint_not_supported "https://as.example" 200 "{}" []
    (by decide) (by intro v hv; simp [lookupJson] at hv)

/-- Claim C1 counterexample: the metadata object
`{"registration_endpoint": 42}` parses as JSON and lacks a non-empty
string `registration_endpoint`, yet discovery returns the value `42`
(which `main` then feeds to registration) instead of the NotSupported
`None`: `if not registration_endpoint` tests Python truthiness, not
being a non-empty string. -/
theorem discover_nonstring_endpoint_counterexample :
    hasNonemptyStringRegistrationEndpoint (.obj [("registration_endpoint", .num 42)]) = false
  ∧ (discover_registration_endpoint "https://as.example"
        (some ⟨200, "x", some (.obj [("registration_endpoint", .num 42)])⟩)).result
      = .ok (some (.num 42))
  ∧ PyResult.ok (some (Json.num 42)) ≠ PyResult.ok (none : Option Json) :=
  ⟨rfl, rfl, by simp⟩

/-- Claim C3: every 201 response with a JSON-parseable body makes
`register_client` return the parsed body verbatim; in particular the
body `{"client_id": "abc123"}` yields a success result whose
`client_id` is `"abc123"`. -/
theorem register_created_returns_body :
    (∀ (endpoint : Json) (clientName : String) (redirectUris : List String)
        (text : String) (v : Json),
      (register_client endpoint clientName redirectUris
          (some ⟨201, text, some v⟩)).outcome = .returned v)
  ∧ (register_client (.str "https://as.example/register") "My App"
        ["https://app.example/cb"]
        (some ⟨201, "", some (.obj [("client_id", .str "abc123")])⟩)).outcome
      = .returned (.obj [("client_id", .str "abc123")])
  ∧ Json.getKey (.obj [("client_id", .str "abc123")]) "client_id"
      = some (.str "abc123") :=
  ⟨fun _ _ _ _ _ => rfl, rfl, rfl⟩

/-- Claim C10: a 201 response whose body is not JSON does not yield a
success result: `register_client` prints the invalid-JSON diagnostic and
exits with code 1. -/
theorem register_created_invalid_json_exits (endpoint : Json)
    (clientName : String) (redirectUris : List String) (text : String) :
    (register_client endpoint clientName redirectUris
        (some ⟨201, text, none⟩)).outcome = .exited 1
  ∧ RegEvent.errInvalidJson
      ∈ (register_client endpoint clientName redirectUris
          (some ⟨201, text, none⟩)).events :=
  ⟨rfl, by simp [register_client]⟩

/-- Claim C6: whatever the caller input and network outcome, the request
body built by `register_client` carries the three fixed protocol
fields. -/
theorem register_request_fixed_fields (endpoint : Json) (clientName : String)
    (redirectUris : List String) (net : Option HttpResponse) :
    Json.getKey (register_client endpoint clientName redirectUris net).request
        "grant_types" = some (.arr [.str "authorization_code"])
  ∧ Json.getKey (register_client endpoint clientName redirectUris net).request
        "response_types" = some (.arr [.str "code"])
  ∧ Json.getKey (register_client endpoint clientName redirectUris net).request
        "token_endpoint_auth_method" = some (.str "client_secret_basic") :=
  ⟨rfl, rfl, rfl⟩

/-- Claim C5: when no non-blank redirect URI remains after parsing, the
invocation ends in the validation error having made zero network
requests. -/
theorem empty_redirect_uris_fail_before_network
    (authServer clientName redirectUris : String)
    (discNet regNet : Option HttpResponse)
    (h : redirectUriList redirectUris = []) :
    main authServer clientName redirectUris discNet regNet
      = ⟨0, .validationError⟩ := by
  simp [main, h]

/-- Witness for C5 at a concrete all-blank input. -/
theorem empty_redirect_uris_fail_before_network_witness :
    main "as.example" "My App" " , ,  " none none = ⟨0, .validationError⟩ :=
  empty_redirect_uris_fail_before_network "as.example" "My App" " , ,  "
    none none (by decide)

/-- The comprehension of line 155 filters then maps with the same
`strip`; commuted, that is: trim every piece, then drop the blanks. -/
theorem redirectUriList_eq_spec (s : String) :
    redirectUriList s = specRedirectUris s :=
  (List.filter_map (p := fun t => t ≠ "") pyStrip (pySplitComma s)).symm

/-- Claim C8: the parsed redirect-URI list is obtained by splitting on
`,`, trimming each entry and discarding blanks; it is a sublist of the
trimmed pieces (order preserved) and contains no blank entry. -/
theorem redirect_uris_split_trim_order (s : String) :
    redirectUriList s = specRedirectUris s
  ∧ (redirectUriList s).Sublist ((pySplitComma s).map pyStrip)
  ∧ (redirectUriList s).all (fun u => u ≠ "") = true := by
  refine ⟨redirectUriList_eq_spec s, ?_, ?_⟩
  · rw [redirectUriList_eq_spec s]
    exact List.filter_sublist _
  · rw [redirectUriList_eq_spec s]
    simp [specRedirectUris, List.all_eq_true, List.mem_filter]

/-- Claim C4 (amended): for every response with status other than 201,
`register_client` reports and calls `sys.exit(1)`: a JSON object body
yields the structured report with `error` defaulting to
`"unknown_error"` and `error_description` defaulting to
`"No description provided"` plus the status; a non-JSON body yields the
status and the raw body text. A body that is valid JSON but not an
object instead raises an uncaught `AttributeError` (see the
counterexample). -/
theorem register_non201_reports_and_exits (endpoint : Json)
    (clientName : String) (redirectUris : List String)
    (status : Nat) (text : String) (body : Option Json)
    (h : status ≠ 201) :
    match body with
    | some (.obj fields) =>
        (register_client endpoint clientName redirectUris
            (some ⟨status, text, body⟩)).outcome = .exited 1
      ∧ RegEvent.errStructured
            ((lookupJson fields "error").getD (.str "unknown_error"))
            ((lookupJson fields "error_description").getD (.str "No description provided"))
            status (.obj fields)
          ∈ (register_client endpoint clientName redirectUris
              (some ⟨status, text, body⟩)).events
    | some _ =>
        (register_client endpoint clientName redirectUris
            (some ⟨status, text, body⟩)).outcome = .raised
    | none =>
        (register_client endpoint clientName redirectUris
            (some ⟨status, text, body⟩)).outcome = .exited 1
      ∧ RegEvent.errUnstructured status text
          ∈ (register_client endpoint clientName redirectUris
              (some ⟨status, text, body⟩)).events := by
  cases body with
  | none => exact ⟨by simp [register_client, h], by simp [register_client, h]⟩
  | some m => cases m <;> simp [register_client, h]

/-- Witness for C4 (amended) at a 400 response with the structured error
body from the spec's example. -/
theorem register_non201_reports_and_exits_witness :
    (register_client (.str "https://as.example/register") "My App"
        ["https://app.example/cb"]
        (some ⟨400, "{...}",
          some (.obj [("error", .str "invalid_redirect_uri"),
                      ("error_description", .str "bad uri")])⟩)).outcome
      = .exited 1
  ∧ RegEvent.errStructured (.str "invalid_redirect_uri") (.str "bad uri") 400
        (.obj [("error", .str "invalid_redirect_uri"),
               ("error_description", .str "bad uri")])
      ∈ (register_client (.str "https://as.example/register") "My App"
          ["https://app.example/cb"]
          (some ⟨400, "{...}",
            some (.obj [("error", .str "invalid_redirect_uri"),
                        ("error_description", .str "bad uri")])⟩)).events :=
  register_non201_reports_and_exits (.str "https://as.example/register")
    "My App" ["https://app.example/cb"] 400 "{...}"
    (some (.obj [("error", .str "invalid_redirect_uri"),
                 ("error_description", .str "bad uri")]))
    (by decide)

/-- Claim C4 counterexample: a 400 response whose body is the JSON array
`[1, 2]` parses as JSON, yet no RegistrationError with the defaulted
`error` fields is reported and `sys.exit(1)` is never reached:
`error_data.get` raises an uncaught `AttributeError` on the list. -/
theorem register_non201_array_body_counterexample :
    register_client (.str "https://as.example/register") "My App"
        ["https://app.example/cb"]
        (some ⟨400, "[1, 2]", some (.arr [.num 1, .num 2])⟩)
      = ⟨registrationRequest "My App" ["https://app.example/cb"],
         [.registering (.str "https://as.example/register"),
          .requestPanel (registrationRequest "My App" ["https://app.example/cb"])],
         .raised⟩
  ∧ RegOutcome.raised ≠ RegOutcome.exited 1 :=
  ⟨rfl, by simp⟩

/-- Every scheme `urljoin` resolves relatively is also one whose netloc
is carried over (CPython `uses_relative ⊆ uses_netloc`). -/
theorem usesRelative_subset_usesNetloc : ∀ sch ∈ usesRelative, sch ∈ usesNetloc := by
  decide

/-- CPython scheme detection on a string with `https://` prepended. -/
theorem pySplitScheme_https (s : String) :
    pySplitScheme ("https://" ++ s) = some ("https", "//" ++ s) := rfl

/-- When the base URL's scheme takes part in relative resolution,
`urljoin` with the well-known path keeps the base's scheme and netloc
and substitutes the path. -/
theorem joinWellKnown_eq_basePathReplaced (b : String)
    (h : (urlBaseParts b).1 ∈ usesRelative) :
    joinWellKnown b = basePathReplaced b := by
  by_cases hb : b = ""
  · subst hb; rfl
  · simp only [joinWellKnown, if_neg hb]
    rw [if_pos h, if_pos (usesRelative_subset_usesNetloc _ h)]
    rfl

/-- Claim C7 (amended): when the identifier has no scheme, `https://` is
prepended (so the base scheme is `https`), and whenever the base's
scheme is one urllib resolves relatively (`https` in particular), the
well-known path replaces the base URL's path component. For any other
scheme (e.g. `localhost` as parsed from `localhost:8080`) `urljoin`
discards the base instead; see the counterexample. -/
theorem normalization_and_wellknown_join (s : String) :
    (pySplitScheme s = none →
      normalizeAuthServer s = "https://" ++ s
      ∧ baseScheme (normalizeAuthServer s) = "https")
  ∧ (baseScheme (normalizeAuthServer s) ∈ usesRelative →
      wellKnownUrl s = basePathReplaced (normalizeAuthServer s)) := by
  constructor
  · intro h
    have hn : normalizeAuthServer s = "https://" ++ s := by
      simp [normalizeAuthServer, h]
    refine ⟨hn, ?_⟩
    rw [baseScheme, hn]
    simp [urlBaseParts, pySplitScheme_https]
  · intro h
    exact joinWellKnown_eq_basePathReplaced _ h

/-- Witness for C7 (amended) at a schemeless identifier. -/
theorem normalization_and_wellknown_join_witness :
    normalizeAuthServer "example.com/oauth" = "https://example.com/oauth"
  ∧ wellKnownUrl "example.com/oauth"
      = basePathReplaced (normalizeAuthServer "example.com/oauth")
  ∧ wellKnownUrl "example.com/oauth"
      = "https://example.com/.well-known/oauth-authorization-server" :=
  ⟨((normalization_and_wellknown_join "example.com/oauth").1 rfl).1,
   (normalization_and_wellknown_join "example.com/oauth").2 (by decide),
   by decide⟩

/-- Claim C7 counterexample: for the identifier `localhost:8080`,
`urlparse` reports scheme `localhost`, so nothing is prepended; and
since `localhost` is not in urllib's `uses_relative`, `urljoin` discards
the base entirely: the resolved URL is the bare well-known path, not the
base URL with its path component replaced. -/
theorem wellknown_join_localhost_counterexample :
    normalizeAuthServer "localhost:8080" = "localhost:8080"
  ∧ wellKnownUrl "localhost:8080" = "/.well-known/oauth-authorization-server"
  ∧ basePathReplaced (normalizeAuthServer "localhost:8080")
      = "localhost:/.well-known/oauth-authorization-server"
  ∧ wellKnownUrl "localhost:8080"
      ≠ basePathReplaced (normalizeAuthServer "localhost:8080") :=
  ⟨by decide, by decide, by decide, by decide⟩

/-- Classification of discovery runs: a run that prints the
not-supported warning returns `None`, and a run that prints any of the
three error diagnostics (connection failure, non-2xx fetch, invalid
JSON) also returns `None` and never prints the warning. -/
theorem discover_run_classification (a : String) (net : Option HttpResponse) :
    (DiscEvent.warnNotSupported ∈ (discover_registration_endpoint a net).events →
      (discover_registration_endpoint a net).result = .ok none)
  ∧ ((DiscEvent.errConnect ∈ (discover_registration_endpoint a net).events
      ∨ DiscEvent.errInvalidJson ∈ (discover_registration_endpoint a net).events
      ∨ ∃ st tx, DiscEvent.errHttpStatus st tx
          ∈ (discover_registration_endpoint a net).events) →
      (discover_registration_endpoint a net).result = .ok none
      ∧ DiscEvent.warnNotSupported ∉ (discover_registration_endpoint a net).events) := by
  obtain _ | ⟨st, tx, j⟩ := net
  · simp [discover_registration_endpoint]
  · by_cases h2 : 200 ≤ st ∧ st < 300
    · obtain _ | m := j
      · simp [discover_registration_endpoint, h2]
      · cases m with
        | obj fields =>
          cases hl : lookupJson fields "registration_endpoint" with
          | none => simp [discover_registration_endpoint, h2, hl]
          | some v =>
            by_cases ht : v.truthy
            · simp [discover_registration_endpoint, h2, hl, ht]
            · simp [discover_registration_endpoint, h2, hl, ht]
        | null => simp [discover_registration_endpoint, h2]
        | bool b => simp [discover_registration_endpoint, h2]
        | num n => simp [discover_registration_endpoint, h2]
        | str s => simp [discover_registration_endpoint, h2]
        | arr elems => simp [discover_registration_endpoint, h2]
    · simp [discover_registration_endpoint, h2]

/-- Claim C9 (amended): the NotSupported outcome is not a distinct
return variant of discovery: a NotSupported run and a discovery-error
run (connection failure, non-2xx fetch, invalid JSON) return the same
value `None`; the two are distinguishable only through the console
diagnostics, since only NotSupported runs print the not-supported
warning. -/
theorem notsupported_and_errors_return_none (a b : String)
    (m n : Option HttpResponse)
    (hw : DiscEvent.warnNotSupported ∈ (discover_registration_endpoint a m).events)
    (he : DiscEvent.errConnect ∈ (discover_registration_endpoint b n).events
        ∨ DiscEvent.errInvalidJson ∈ (discover_registration_endpoint b n).events
        ∨ ∃ st tx, DiscEvent.errHttpStatus st tx
            ∈ (discover_registration_endpoint b n).events) :
    (discover_registration_endpoint a m).result
      = (discover_registration_endpoint b n).result
  ∧ (discover_registration_endpoint a m).result = .ok none
  ∧ DiscEvent.warnNotSupported ∉ (discover_registration_endpoint b n).events := by
  have cw := (discover_run_classification a m).1 hw
  have ce := (discover_run_classification b n).2 he
  exact ⟨cw.trans ce.1.symm, cw, ce.2⟩

/-- Witness for C9 (amended) at a concrete NotSupported run and a
concrete invalid-JSON error run. -/
theorem notsupported_and_errors_return_none_witness :
    (discover_registration_endpoint "https://as.example"
        (some ⟨200, "{}", some (.obj [])⟩)).result
      = (discover_registration_endpoint "https://other.example"
          (some ⟨200, "not json", none⟩)).result
  ∧ (discover_registration_endpoint "https://as.example"
        (some ⟨200, "{}", some (.obj [])⟩)).result = .ok none
  ∧ DiscEvent.warnNotSupported
      ∉ (discover_registration_endpoint "https://other.example"
          (some ⟨200, "not json", none⟩)).events :=
  notsupported_and_errors_return_none "https://as.example" "https://other.example"
    (some ⟨200, "{}", some (.obj [])⟩) (some ⟨200, "not json", none⟩)
    (by simp [discover_registration_endpoint, lookupJson])
    (Or.inr (Or.inl (by simp [discover_registration_endpoint])))

/-- Claim C9 counterexample: a NotSupported run (valid 200 metadata with
no registration endpoint) and an invalid-JSON discovery-error run end
with identical results — both return `None` — so the two runs' results
do not differ: the function exposes no distinct return variant. -/
theorem notsupported_error_same_result_counterexample :
    (discover_registration_endpoint "https://as.example"
        (some ⟨200, "{}", some (.obj [])⟩)).result
      = (discover_registration_endpoint "https://as.example"
          (some ⟨200, "oops", none⟩)).result
  ∧ (discover_registration_endpoint "https://as.example"
        (some ⟨200, "{}", some (.obj [])⟩)).result = .ok none :=
  ⟨rfl, rfl⟩
